import Mathlib

/-!
Verification of the capture/export pipeline of the `ourphotobooth` web app.

The development shallowly embeds the pipeline's data model and operations:

* `Camera` (burst capture): interval sampling during the countdown, the forced
  final capture, the commit of a burst, and session completion.
* `PhotoEditor`: frame selection by `displayFrameIndex`, sticker mutators, the
  frame cache and its invalidation, and the `downloadGif` export loop.
* `applyFilterToCanvas`: the burned-in pixel transforms (grayscale, contrast,
  sepia, brightness, saturation), with JS numbers modeled as rationals.

Image payloads (base64 data URLs) are modeled as `String`; a rasterized canvas
stored in the frame cache is modeled as an abstract identifier (`Nat`), since
only cache keys and cache emptiness matter to the stated properties.
-/

namespace Photobooth

/-- `FilterType` from `Camera.tsx`. -/
inductive FilterType
  | normal
  | bw
  | soft
  | vintage
  deriving DecidableEq, Repr

/-- `LayoutType` from `LayoutSelector.tsx`. -/
inductive LayoutType
  | fourDiagonal
  | threeDiagonal
  | fourSquare
  | sixGrid
  deriving DecidableEq, Repr

/-- `LAYOUT_CONFIG` from `app/booth` page: required shot count per layout. -/
def LAYOUT_CONFIG : LayoutType → Nat
  | .fourDiagonal => 4
  | .threeDiagonal => 3
  | .fourSquare => 4
  | .sixGrid => 6

/-! ## Frame selection (`PhotoEditor` render)

The editor renders, for each burst, the frame at
`displayFrameIndex === null ? burst.length - 1 : Math.min(displayFrameIndex, burst.length - 1)`.
-/

/-- The index of the frame of `burst` shown for a given `displayFrameIndex`
(`null` is `none`). Mirrors the `frameIndex` computation in `PhotoEditor`. -/
def frameIndexFor (displayFrameIndex : Option Nat) (burst : List String) : Nat :=
  match displayFrameIndex with
  | none => burst.length - 1
  | some i => min i (burst.length - 1)

/-- The frame of `burst` shown for a given `displayFrameIndex`
(`burst[frameIndex]`; `none` when the access is out of bounds). -/
def selectedFrame (displayFrameIndex : Option Nat) (burst : List String) : Option String :=
  burst.get? (frameIndexFor displayFrameIndex burst)

/-! ## Stickers and the editor state (`PhotoEditor`) -/

/-- A decorative sticker: identity, glyph, position, scale. -/
structure Sticker where
  id : Nat
  content : String
  x : ℚ
  y : ℚ
  scale : ℚ
  deriving DecidableEq, Repr

/-- The mutable editor state owned by `PhotoEditor`: border color, stickers,
and the frame cache keyed by strings of the form
`frameIndex-filter-borderColor`. -/
structure EditorState where
  borderColor : String
  stickers : List Sticker
  frameCache : List (String × Nat)
  displayFrameIndex : Option Nat
  isExporting : Bool
  deriving DecidableEq, Repr

/-- `frameCacheRef.current.get(key)`: lookup in the frame cache. -/
def cacheLookup (cache : List (String × Nat)) (key : String) : Option Nat :=
  (cache.find? (fun e => e.1 == key)).map (fun e => e.2)

/-- `setBorderColor`: set the color and clear the frame cache. -/
def setBorderColor (st : EditorState) (color : String) : EditorState :=
  { st with borderColor := color, frameCache := [] }

/-- `addSticker`: append a sticker at the origin with scale 1 and clear the
frame cache (`id` stands for the `Date.now()` identity). -/
def addSticker (st : EditorState) (content : String) (id : Nat) : EditorState :=
  { st with stickers := st.stickers ++ [⟨id, content, 0, 0, 1⟩], frameCache := [] }

/-- `removeSticker`: drop the sticker with the given id and clear the cache. -/
def removeSticker (st : EditorState) (id : Nat) : EditorState :=
  { st with stickers := st.stickers.filter (fun s => s.id ≠ id), frameCache := [] }

/-- The clamp inside `resizeSticker`: `Math.max(0.5, Math.min(3, s.scale + delta))`. -/
def clampScale (scale delta : ℚ) : ℚ :=
  max (1/2) (min 3 (scale + delta))

/-- `resizeSticker`: clamp the matched sticker's new scale to `[0.5, 3]` and
clear the frame cache. -/
def resizeSticker (st : EditorState) (id : Nat) (delta : ℚ) : EditorState :=
  { st with
    stickers := st.stickers.map (fun s =>
      if s.id = id then { s with scale := clampScale s.scale delta } else s),
    frameCache := [] }

/-- `updateStickerPosition`: commit a drag's final position and clear the cache. -/
def updateStickerPosition (st : EditorState) (id : Nat) (x y : ℚ) : EditorState :=
  { st with
    stickers := st.stickers.map (fun s =>
      if s.id = id then { s with x := x, y := y } else s),
    frameCache := [] }

/-- `n` successive resize clicks with a fixed `delta`, as iterated application
of the clamp used by `resizeSticker` to a sticker's scale. -/
def iterateResize (delta : ℚ) : Nat → ℚ → ℚ
  | 0, s => s
  | n + 1, s => iterateResize delta n (clampScale s delta)

theorem clampScale_le_three (s delta : ℚ) : clampScale s delta ≤ 3 :=
  max_le (by norm_num) (min_le_left _ _)

theorem half_le_clampScale (s delta : ℚ) : (1/2 : ℚ) ≤ clampScale s delta :=
  le_max_left _ _

theorem iterateResize_le_three (delta : ℚ) :
    ∀ n s, s ≤ 3 → iterateResize delta n s ≤ 3 := by
  intro n
  induction n with
  | zero => intro s hs; simpa [iterateResize] using hs
  | succ k ih =>
    intro s _
    simpa [iterateResize] using ih (clampScale s delta) (clampScale_le_three s delta)

theorem half_le_iterateResize (delta : ℚ) :
    ∀ n s, (1/2 : ℚ) ≤ s → (1/2 : ℚ) ≤ iterateResize delta n s := by
  intro n
  induction n with
  | zero => intro s hs; simpa [iterateResize] using hs
  | succ k ih =>
    intro s _
    simpa [iterateResize] using ih (clampScale s delta) (half_le_clampScale s delta)

/-! ## Burst capture (`Camera`)

The canonical capture policy samples the webcam at a fixed interval during the
countdown and forces one final capture when the countdown reaches zero.  Every
`getScreenshot()` result is kept only if it is a string starting with
`"data:image/"`; a failed attempt yields nothing and is dropped.
-/

/-- The JS validity test `imageSrc.startsWith("data:image/")`, stated on the
string's character list (JS `startsWith` compares the leading code units). -/
def isDataImage (img : String) : Bool :=
  img.data.take 11 == "data:image/".data

/-- Handling of one `getScreenshot()` result: push the image onto the burst
buffer when it is present and starts with `"data:image/"`, otherwise drop it.
Mirrors both the interval sampler and the final-snap handling in `Camera`. -/
def pushCapture (burst : List String) (shot : Option String) : List String :=
  match shot with
  | some img => if isDataImage img then burst ++ [img] else burst
  | none => burst

/-- The burst committed by `Camera` when the countdown reaches zero: the
buffer built from the interval samples, followed by the forced final snap,
saved by `setPhotos` unconditionally (`setPhotos(prev => [...prev, [...burstRef.current]])`). -/
def committedBurst (samples : List (Option String)) (finalSnap : Option String) : List String :=
  pushCapture (samples.foldl pushCapture []) finalSnap

/-- The commit step of `captureBurst`: the burst is appended to `photos` only
when it is non-empty (`if (burst.length > 0) setPhotos(prev => [...prev, burst])`). -/
def commitBurst (photos : List (List String)) (burst : List String) : List (List String) :=
  if burst.length > 0 then photos ++ [burst] else photos

/-- The capture session loop: while `photos.length < photoCount`, run one more
countdown and commit the burst it produces (`stream k` is the burst produced
by the shot taken when `k` bursts are already committed).  `fuel` bounds the
number of countdowns run. -/
def captureSession (photoCount : Nat) (stream : Nat → List String) :
    Nat → List (List String) → List (List String)
  | 0, photos => photos
  | fuel + 1, photos =>
    if photos.length < photoCount then
      captureSession photoCount stream fuel (commitBurst photos (stream photos.length))
    else photos

/-- The completion effect in `Camera`:
`if (photos.length >= photoCount && isCapturing) onComplete(photos, filter)`. -/
def completionSignal (photoCount : Nat) (photos : List (List String))
    (filter : FilterType) : Option (List (List String) × FilterType) :=
  if photoCount ≤ photos.length then some (photos, filter) else none

theorem commitBurst_length_succ (photos : List (List String)) (burst : List String)
    (h : burst ≠ []) : (commitBurst photos burst).length = photos.length + 1 := by
  have hpos : 0 < burst.length := List.length_pos.mpr h
  simp [commitBurst, hpos]

theorem captureSession_length (photoCount : Nat) (stream : Nat → List String)
    (hs : ∀ i, stream i ≠ []) :
    ∀ fuel photos, photos.length ≤ photoCount → photoCount ≤ photos.length + fuel →
      (captureSession photoCount stream fuel photos).length = photoCount := by
  intro fuel
  induction fuel with
  | zero =>
    intro photos hle hge
    simpa [captureSession] using Nat.le_antisymm hle (by simpa using hge)
  | succ k ih =>
    intro photos hle hge
    by_cases hlt : photos.length < photoCount
    · rw [captureSession, if_pos hlt]
      have hstep := commitBurst_length_succ photos (stream photos.length) (hs _)
      apply ih
      · omega
      · omega
    · rw [captureSession, if_neg hlt]
      omega

/-! ## GIF export (`downloadGif` in `PhotoEditor`) -/

/-- `const burstLength = photos[0]?.length || 1` (JS `||`: a burst length of
`0` is falsy, so it also yields `1`). -/
def gifBurstLength (photos : List (List String)) : Nat :=
  match photos with
  | [] => 1
  | b :: _ => if b.length = 0 then 1 else b.length

/-- `const loops = 3` in `downloadGif`. -/
def gifLoops : Nat := 3

/-- The observable outcome of a `downloadGif` call: the `displayFrameIndex`
values at which the composite was rasterized and handed to `gif.addFrame`, in
append order; whether a file download was produced; and the final value of the
`isExporting` flag. -/
structure GifExport where
  appended : List Nat
  fileProduced : Bool
  isExporting : Bool
  deriving DecidableEq, Repr

/-- Model of `downloadGif`: refuse when `burstLength <= 1` (resetting
`isExporting`, producing nothing); otherwise run
`for (loop = 0; loop < loops; loop++) for (i = 0; i < burstLength; i++)`
rasterizing the composite at `displayFrameIndex = i` and appending it to the
encoder, then produce the downloadable file (after which the `finished`
callback resets `isExporting`). -/
def downloadGif (photos : List (List String)) : GifExport :=
  let burstLength := gifBurstLength photos
  if burstLength ≤ 1 then
    { appended := [], fileProduced := false, isExporting := false }
  else
    { appended := (List.range gifLoops).flatMap (fun _ => List.range burstLength),
      fileProduced := true, isExporting := false }

/-- From the spec's words: the length of the shortest burst of the photo set. -/
def shortestBurstLength (photos : List (List String)) : Nat :=
  match photos with
  | [] => 0
  | b :: rest => rest.foldl (fun m bb => min m bb.length) b.length

/-! ## Burned-in pixel transforms (`applyFilterToCanvas` in `PhotoEditor`)

`applyFilterToCanvas` inspects the CSS filter string produced by
`getFilterStyle` and runs one pass over the pixel buffer per recognized
component, in the fixed source order grayscale, contrast, sepia, brightness,
saturate.  JS numbers are modeled as rationals.
-/

/-- One RGBA pixel of the canvas image data. -/
structure Pixel where
  r : ℚ
  g : ℚ
  b : ℚ
  a : ℚ
  deriving DecidableEq, Repr

/-- The grayscale pass:
`gray = data[i]*0.299 + data[i+1]*0.587 + data[i+2]*0.114`, written to all
three color channels. -/
def grayscalePixel (p : Pixel) : Pixel :=
  let gray := p.r * 0.299 + p.g * 0.587 + p.b * 0.114
  ⟨gray, gray, gray, p.a⟩

/-- `factor = (259 * (contrastValue * 255 + 255)) / (255 * (259 - contrastValue * 255))`. -/
def contrastFactor (c : ℚ) : ℚ :=
  (259 * (c * 255 + 255)) / (255 * (259 - c * 255))

/-- `Math.max(0, Math.min(255, x))`, the per-channel clamp of the contrast pass. -/
def clamp255 (x : ℚ) : ℚ :=
  max 0 (min 255 x)

/-- The contrast pass: each channel becomes
`Math.max(0, Math.min(255, factor * (channel - 128) + 128))`. -/
def contrastPixel (c : ℚ) (p : Pixel) : Pixel :=
  ⟨clamp255 (contrastFactor c * (p.r - 128) + 128),
   clamp255 (contrastFactor c * (p.g - 128) + 128),
   clamp255 (contrastFactor c * (p.b - 128) + 128),
   p.a⟩

/-- The sepia pass at strength `v` (each output channel capped at 255). -/
def sepiaPixel (v : ℚ) (p : Pixel) : Pixel :=
  ⟨min 255 (p.r * (1 - 0.607 * v) + p.g * 0.769 * v + p.b * 0.189 * v),
   min 255 (p.r * 0.349 * v + p.g * (1 - 0.314 * v) + p.b * 0.168 * v),
   min 255 (p.r * 0.272 * v + p.g * 0.534 * v + p.b * (1 - 0.869 * v)),
   p.a⟩

/-- The brightness pass: each channel becomes `Math.min(255, channel * v)`. -/
def brightnessPixel (v : ℚ) (p : Pixel) : Pixel :=
  ⟨min 255 (p.r * v), min 255 (p.g * v), min 255 (p.b * v), p.a⟩

/-- The saturation pass: blend each channel away from its luminance gray,
`Math.min(255, gray + (channel - gray) * v)`. -/
def saturatePixel (v : ℚ) (p : Pixel) : Pixel :=
  let gray := p.r * 0.299 + p.g * 0.587 + p.b * 0.114
  ⟨min 255 (gray + (p.r - gray) * v),
   min 255 (gray + (p.g - gray) * v),
   min 255 (gray + (p.b - gray) * v),
   p.a⟩

/-- Which passes of `applyFilterToCanvas` fire, with which parsed parameter. -/
structure FilterParams where
  grayscale : Bool
  contrast : Option ℚ
  sepia : Option ℚ
  brightness : Option ℚ
  saturate : Option ℚ
  deriving DecidableEq, Repr

/-- The result of the `filterValue.includes(...)` tests and
`parseFloat` regex extractions of `applyFilterToCanvas` on the filter string
`getFilterStyle` produces for each filter:

* `normal`: `""` (the function returns the buffer unchanged);
* `bw`: `"grayscale(100%) contrast(1.2)"`;
* `soft`: `"brightness(1.1) contrast(0.9) saturate(0.8) blur(0.5px)"`;
* `vintage`: `"sepia(0.5) contrast(1.1) saturate(0.8)"`. -/
def parseFilter : FilterType → FilterParams
  | .normal => ⟨false, none, none, none, none⟩
  | .bw => ⟨true, some 1.2, none, none, none⟩
  | .soft => ⟨false, some 0.9, none, some 1.1, some 0.8⟩
  | .vintage => ⟨false, some 1.1, some 0.5, none, some 0.8⟩

/-- The sequence of per-pass loops of `applyFilterToCanvas`, in source order:
grayscale, contrast, sepia, brightness, saturate. -/
def applyFilterPasses (fp : FilterParams) (data : List Pixel) : List Pixel :=
  let d1 := if fp.grayscale then data.map grayscalePixel else data
  let d2 := match fp.contrast with
    | some c => d1.map (contrastPixel c)
    | none => d1
  let d3 := match fp.sepia with
    | some v => d2.map (sepiaPixel v)
    | none => d2
  let d4 := match fp.brightness with
    | some v => d3.map (brightnessPixel v)
    | none => d3
  match fp.saturate with
  | some v => d4.map (saturatePixel v)
  | none => d4

/-- `applyFilterToCanvas` as a pure pixel-buffer transform for a given filter
id: parse the filter's CSS string and run the recognized passes. -/
def applyFilterToCanvas (f : FilterType) (data : List Pixel) : List Pixel :=
  applyFilterPasses (parseFilter f) data

/-- From the spec's words, the bw transform: luminance
`0.299R + 0.587G + 0.114B` replicated to all three channels, then the
contrast transform with `C = 1.2`, where
`factor = (259*(C*255+255)) / (255*(259-C*255))` and each output channel is
`clamp(factor*(in-128)+128, 0, 255)`. -/
def bwSpecPixel (p : Pixel) : Pixel :=
  let lum := 0.299 * p.r + 0.587 * p.g + 0.114 * p.b
  let factor := (259 * ((1.2 : ℚ) * 255 + 255)) / (255 * (259 - (1.2 : ℚ) * 255))
  ⟨max 0 (min 255 (factor * (lum - 128) + 128)),
   max 0 (min 255 (factor * (lum - 128) + 128)),
   max 0 (min 255 (factor * (lum - 128) + 128)),
   p.a⟩

theorem bw_pixel_eq_spec (p : Pixel) :
    contrastPixel 1.2 (grayscalePixel p) = bwSpecPixel p := by
  simp only [contrastPixel, grayscalePixel, bwSpecPixel, contrastFactor, clamp255]
  ring_nf

/-! ## Claim theorems -/

/-- C1 (counterexample): with bursts of lengths 3 and 2, `downloadGif` appends
`3 * 3 = 9` frames, not `3 * 2 = 6` — the export iterates over the FIRST
burst's length (`photos[0]?.length || 1`), not the shortest burst length as
the claim states. -/
theorem gif_total_frames_shortest_cex :
    (downloadGif [["a", "b", "c"], ["d", "e"]]).appended.length ≠
      3 * shortestBurstLength [["a", "b", "c"], ["d", "e"]] := by
  decide

/-- C1 (amended): for the animated-GIF export with loop count 3, the export
cycles the render frame index over positions `0` to (FIRST burst length − 1),
rasterizing the composite at each index, and appends the resulting frames in
strict position order per loop, looped sequentially and never interleaved or
reordered; the total number of appended frames is 3 times the first burst's
length. -/
theorem gif_frames_strict_order (photos : List (List String))
    (h : 1 < gifBurstLength photos) :
    (downloadGif photos).appended =
      List.range (gifBurstLength photos) ++ List.range (gifBurstLength photos) ++
        List.range (gifBurstLength photos) ∧
      (downloadGif photos).appended.length = 3 * gifBurstLength photos := by
  have hnot : ¬ gifBurstLength photos ≤ 1 := by omega
  have h3 : List.range gifLoops = [0, 1, 2] := rfl
  constructor
  · simp [downloadGif, hnot, h3]
  · simp [downloadGif, hnot, h3]
    ring

/-- Witness for C1 (amended) at a two-frame burst. -/
theorem gif_frames_strict_order_witness :
    (downloadGif [["a", "b"]]).appended =
        List.range 2 ++ List.range 2 ++ List.range 2 ∧
      (downloadGif [["a", "b"]]).appended.length = 3 * gifBurstLength [["a", "b"]] :=
  gif_frames_strict_order [["a", "b"]] (by decide)

/-- C2 (counterexample): when every interval sample AND the forced final
capture fail (`getScreenshot()` yields nothing), `Camera` still commits the
burst — empty, with length `0 < 1` — because `setPhotos` runs
unconditionally when the countdown reaches zero. -/
theorem committed_burst_empty_cex :
    ¬ 1 ≤ (committedBurst [none, none] none).length := by
  decide

/-- C2 (amended): a completed burst contains at least one frame whenever the
forced final capture at countdown zero succeeds (yields a valid
`data:image/` string); if every capture attempt, including the final one,
fails, the committed burst is empty. -/
theorem committed_burst_nonempty_of_final (samples : List (Option String))
    (img : String) (h : isDataImage img = true) :
    1 ≤ (committedBurst samples (some img)).length := by
  simp [committedBurst, pushCapture, h]

/-- Witness for C2 (amended): a successful final snap after one failed sample. -/
theorem committed_burst_nonempty_witness :
    isDataImage "data:image/jpeg;base64,Zm9v" = true ∧
      1 ≤ (committedBurst [none] (some "data:image/jpeg;base64,Zm9v")).length :=
  ⟨by decide, committed_burst_nonempty_of_final [none] _ (by decide)⟩

/-- C3: when the computed burst length (`photos[0]?.length || 1`) is at most
1, `downloadGif` refuses the export: no frame is rasterized or appended, no
file is produced, and `isExporting` is reset to `false`. -/
theorem gif_export_refused (photos : List (List String))
    (h : gifBurstLength photos ≤ 1) :
    downloadGif photos =
      { appended := [], fileProduced := false, isExporting := false } := by
  simp [downloadGif, h]

/-- Witness for C3 at a single-frame burst. -/
theorem gif_export_refused_witness :
    gifBurstLength [["a"]] ≤ 1 ∧
      downloadGif [["a"]] =
        { appended := [], fileProduced := false, isExporting := false } :=
  ⟨by decide, gif_export_refused [["a"]] (by decide)⟩

/-- C4: for every layout, a completed capture session (every countdown
committing a non-empty burst) produces a photo set with exactly the layout's
required shot count of bursts, and the completion effect signals with that
full photo set and the active filter. -/
theorem session_produces_exact_count (layout : LayoutType)
    (stream : Nat → List String) (filter : FilterType)
    (hs : ∀ i, stream i ≠ []) :
    (captureSession (LAYOUT_CONFIG layout) stream (LAYOUT_CONFIG layout) []).length
        = LAYOUT_CONFIG layout ∧
      completionSignal (LAYOUT_CONFIG layout)
          (captureSession (LAYOUT_CONFIG layout) stream (LAYOUT_CONFIG layout) []) filter
        = some (captureSession (LAYOUT_CONFIG layout) stream (LAYOUT_CONFIG layout) [],
            filter) := by
  have hlen :
      (captureSession (LAYOUT_CONFIG layout) stream (LAYOUT_CONFIG layout) []).length
        = LAYOUT_CONFIG layout :=
    captureSession_length (LAYOUT_CONFIG layout) stream hs (LAYOUT_CONFIG layout) []
      (by simp) (by simp)
  exact ⟨hlen, by simp [completionSignal, hlen]⟩

/-- Witness for C4: the 4-square layout with a constant one-frame burst stream. -/
theorem session_produces_exact_count_witness :
    (captureSession 4 (fun _ => ["f"]) 4 []).length = 4 ∧
      completionSignal 4 (captureSession 4 (fun _ => ["f"]) 4 []) FilterType.normal
        = some (captureSession 4 (fun _ => ["f"]) 4 [], FilterType.normal) :=
  session_produces_exact_count LayoutType.fourSquare (fun _ => ["f"]) FilterType.normal
    (fun _ => by simp)

/-- C5: the burned-in bw transform computes, for every pixel of the buffer,
luminance `0.299R + 0.587G + 0.114B` replicated to all three channels, then
the contrast transform with `C = 1.2`,
`factor = (259*(C*255+255)) / (255*(259-C*255))`,
each output channel `clamp(factor*(in-128)+128, 0, 255)`. -/
theorem bw_filter_formula (data : List Pixel) :
    applyFilterToCanvas FilterType.bw data = data.map bwSpecPixel := by
  show (data.map grayscalePixel).map (contrastPixel 1.2) = data.map bwSpecPixel
  rw [List.map_map]
  congr 1
  funext p
  exact bw_pixel_eq_spec p

/-- C6: after any visual-affecting state change — border color, any sticker
mutation (add, remove, resize, reposition) — the frame cache is empty, so the
next rasterization for any key is a cache miss.  (A filter change remounts
the editor with a fresh, empty cache.) -/
theorem cache_cleared_on_visual_change (st : EditorState)
    (c content : String) (id : Nat) (d x y : ℚ) (key : String) :
    ((setBorderColor st c).frameCache = [] ∧
        cacheLookup (setBorderColor st c).frameCache key = none) ∧
      ((addSticker st content id).frameCache = [] ∧
        cacheLookup (addSticker st content id).frameCache key = none) ∧
      ((removeSticker st id).frameCache = [] ∧
        cacheLookup (removeSticker st id).frameCache key = none) ∧
      ((resizeSticker st id d).frameCache = [] ∧
        cacheLookup (resizeSticker st id d).frameCache key = none) ∧
      ((updateStickerPosition st id x y).frameCache = [] ∧
        cacheLookup (updateStickerPosition st id x y).frameCache key = none) := by
  simp [setBorderColor, addSticker, removeSticker, resizeSticker,
    updateStickerPosition, cacheLookup]

/-- C7: for every non-empty burst, the frame selected when
`displayFrameIndex` is `null` is the frame selected when it is
`burst.length - 1` (both yield the burst's last frame). -/
theorem frame_null_eq_last (burst : List String) (_h : burst ≠ []) :
    selectedFrame none burst = selectedFrame (some (burst.length - 1)) burst := by
  simp [selectedFrame, frameIndexFor]

/-- Witness for C7 at a two-frame burst. -/
theorem frame_null_eq_last_witness :
    (["a", "b"] : List String) ≠ [] ∧
      selectedFrame none ["a", "b"] = selectedFrame (some 1) ["a", "b"] :=
  ⟨by decide, frame_null_eq_last ["a", "b"] (by decide)⟩

/-- C8: sticker resize is idempotently clamped to `[0.5, 3]`: any sequence of
`+0.1` resizes never leaves the scale above 3, any sequence of `-0.1` resizes
never leaves it below 0.5, a resize at either bound in the same direction is
the identity, and `resizeSticker` applies exactly this clamp to the matched
sticker. -/
theorem sticker_resize_clamped (s : ℚ) (n : Nat) (st : EditorState)
    (id : Nat) (d : ℚ) :
    iterateResize (1/10) (n + 1) s ≤ 3 ∧
      (1/2 : ℚ) ≤ iterateResize (-(1/10)) (n + 1) s ∧
      clampScale 3 (1/10) = 3 ∧
      clampScale (1/2) (-(1/10)) = 1/2 ∧
      (resizeSticker st id d).stickers =
        st.stickers.map (fun t =>
          if t.id = id then { t with scale := clampScale t.scale d } else t) := by
  refine ⟨?_, ?_, ?_, ?_, rfl⟩
  · exact iterateResize_le_three _ n _ (clampScale_le_three s _)
  · exact half_le_iterateResize _ n _ (half_le_clampScale s _)
  · rw [clampScale, min_eq_left (by norm_num : (3 : ℚ) ≤ 3 + 1/10),
      max_eq_right (by norm_num : (1 : ℚ)/2 ≤ 3)]
  · rw [clampScale, min_eq_right (by norm_num : (1 : ℚ)/2 + -(1/10) ≤ 3),
      max_eq_left (by norm_num : (1 : ℚ)/2 + -(1/10) ≤ 1/2)]

/-- C9: the filter function is deterministic — two invocations of the pixel
transform on the same input buffer with the same filter id yield identical
output buffers. -/
theorem filter_deterministic (f : FilterType) (data out1 out2 : List Pixel)
    (h1 : out1 = applyFilterToCanvas f data)
    (h2 : out2 = applyFilterToCanvas f data) :
    out1 = out2 :=
  h1.trans h2.symm

/-- Witness for C9 at the bw filter on a one-pixel buffer. -/
theorem filter_deterministic_witness :
    applyFilterToCanvas FilterType.bw [⟨10, 20, 30, 255⟩] =
        applyFilterToCanvas FilterType.bw [⟨10, 20, 30, 255⟩] ∧
      applyFilterToCanvas FilterType.bw [⟨10, 20, 30, 255⟩] =
        applyFilterToCanvas FilterType.bw [⟨10, 20, 30, 255⟩] :=
  ⟨rfl, filter_deterministic FilterType.bw [⟨10, 20, 30, 255⟩] _ _ rfl rfl⟩

/-- C10: frame selection is always in bounds — for every non-empty burst and
every non-null render frame index `i` (including `i ≥ burst.length`, which
arises during GIF export when bursts differ in length), the displayed frame
index is `min i (burst.length - 1)`, which is within the burst, so rendering
never reads past the end of any burst. -/
theorem frame_selection_safe (burst : List String) (i : Nat) (h : burst ≠ []) :
    frameIndexFor (some i) burst = min i (burst.length - 1) ∧
      frameIndexFor (some i) burst < burst.length ∧
      (selectedFrame (some i) burst).isSome = true := by
  have hpos : 0 < burst.length := List.length_pos.mpr h
  have hlt : frameIndexFor (some i) burst < burst.length := by
    have h1 : min i (burst.length - 1) ≤ burst.length - 1 := min_le_right _ _
    have h2 : burst.length - 1 < burst.length := Nat.sub_lt hpos Nat.one_pos
    exact lt_of_le_of_lt h1 h2
  refine ⟨rfl, hlt, ?_⟩
  simp only [selectedFrame, List.get?_eq_getElem?]
  rw [List.getElem?_eq_getElem hlt]
  rfl

/-- Witness for C10: an out-of-range index 5 against a two-frame burst. -/
theorem frame_selection_safe_witness :
    (["a", "b"] : List String) ≠ [] ∧
      (frameIndexFor (some 5) ["a", "b"] = min 5 (["a", "b"].length - 1) ∧
        frameIndexFor (some 5) ["a", "b"] < ["a", "b"].length ∧
        (selectedFrame (some 5) ["a", "b"]).isSome = true) :=
  ⟨by decide, frame_selection_safe ["a", "b"] 5 (by decide)⟩

end Photobooth
